import Mathlib

/-!
Shallow embedding of the NeonFlow 3D music player core
(`src/App.tsx`, `src/components/Visualizer3D.tsx`,
`src/components/PlayerControls.tsx`, `src/components/LyricsPanel.tsx`,
`src/unnamed/part_003` — the Gemini AI service), together with
theorems settling the specification claims about it.

Conventions: JavaScript numbers are modelled as `ℚ` (or `ℝ` where the
source uses `Math.sin`), JS `%` on the integers that occur here as
`Int.tmod` (truncating remainder, the JS semantics), `undefined`/`null`
as `Option.none`, and the JS `||` fallback idiom on strings explicitly
(empty string is falsy).
-/

namespace NeonFlow

/-- Numeric clamp, used only to phrase spec claims about the drag gesture. -/
def clamp (x lo hi : ℚ) : ℚ := max lo (min hi x)

/-! ### `useVisualizerDrag.onPointerMove` (src/components/Visualizer3D.tsx, lines 56-72)

The drag handler reads the captured start state `(startIntensity, startSpeed)`
and the pointer displacement `(deltaX, deltaY)` and emits the new
`(newIntensity, newSpeed)` pair. -/

def onPointerMove (startIntensity startSpeed deltaX deltaY : ℚ) : ℚ × ℚ :=
  let speedChange := deltaX / 150
  let intensityChange := -deltaY / 150
  let newSpeed := max 0 (min 4 (startSpeed + speedChange))
  let newIntensity := max (1/10) (min 3 (startIntensity + intensityChange))
  (newIntensity, newSpeed)

/-! ### `handleNext` / `handlePrev` (src/App.tsx, lines 213-219)

`setCurrentTrackIndex((prev) => (prev + 1) % playingTracks.length)` and
`setCurrentTrackIndex((prev) => (prev - 1 + playingTracks.length) % playingTracks.length)`.
JS `%` is the truncating remainder, i.e. `Int.tmod`. -/

def handleNext (i n : ℤ) : ℤ := Int.tmod (i + 1) n

def handlePrev (i n : ℤ) : ℤ := Int.tmod (i - 1 + n) n

/-! ### Orb target scale (src/components/Visualizer3D.tsx, lines 124-127)

`const scale = 1 + (average / 255) * (1.5 * intensity);` -/

def orbTargetScale (average intensity : ℚ) : ℚ :=
  1 + (average / 255) * (3/2 * intensity)

/-! ### Simulation-mode frequency generator (src/components/Visualizer3D.tsx, lines 106-109)

`const simulatedAvg = (Math.sin(time * 4) * 0.5 + 0.5) * 128 + 64;`
`Math.sin` is modelled as `Real.sin`. -/

noncomputable def simulatedAvg (time : ℝ) : ℝ :=
  (Real.sin (time * 4) * 0.5 + 0.5) * 128 + 64

/-! ### Wave visualizer accumulated clock (src/components/Visualizer3D.tsx, lines 210-219)

Each frame executes `timeRef.current += delta * speed;`; the ref is never
reset or written anywhere else. A frame is the pair `(delta, speed)` the
frame callback observes. -/

structure WaveFrame where
  delta : ℚ
  speed : ℚ

def waveStep (t : ℚ) (f : WaveFrame) : ℚ := t + f.delta * f.speed

def waveRun (t0 : ℚ) (frames : List WaveFrame) : ℚ := frames.foldl waveStep t0

lemma waveRun_nil (t0 : ℚ) : waveRun t0 [] = t0 := rfl

lemma waveRun_cons (t0 : ℚ) (f : WaveFrame) (fs : List WaveFrame) :
    waveRun t0 (f :: fs) = waveRun (waveStep t0 f) fs := rfl

lemma waveRun_eq_add_sum (frames : List WaveFrame) : ∀ t0 : ℚ,
    waveRun t0 frames = t0 + (frames.map (fun f => f.delta * f.speed)).sum := by
  induction frames with
  | nil => intro t0; simp [waveRun]
  | cons f fs ih =>
      intro t0
      rw [waveRun_cons, ih]
      simp [waveStep]
      ring

lemma waveRun_le (t0 : ℚ) (frames : List WaveFrame)
    (h : ∀ f ∈ frames, 0 ≤ f.delta ∧ 0 ≤ f.speed) : t0 ≤ waveRun t0 frames := by
  rw [waveRun_eq_add_sum]
  have hsum : 0 ≤ (frames.map (fun f => f.delta * f.speed)).sum := by
    apply List.sum_nonneg
    intro x hx
    obtain ⟨f, hf, rfl⟩ := List.mem_map.mp hx
    exact mul_nonneg (h f hf).1 (h f hf).2
  linarith

/-! ### `useCurrentLyricLine` (src/components/PlayerControls.tsx, lines 21-33)

`lyrics.split(String.fromCharCode 10)` and `line.trim()` are embedded as the
structurally recursive `splitLines` / `jsTrim` below so that they evaluate by
kernel reduction; they implement exactly the JS semantics of splitting on the
newline character and stripping whitespace from both ends. -/

def splitLinesAux : List Char → List Char → List String
  | [], acc => [String.mk acc.reverse]
  | c :: cs, acc =>
      if c = '\n' then String.mk acc.reverse :: splitLinesAux cs []
      else splitLinesAux cs (c :: acc)

def splitLines (s : String) : List String := splitLinesAux s.data []

def jsTrim (s : String) : String :=
  String.mk (((s.data.dropWhile Char.isWhitespace).reverse.dropWhile
    Char.isWhitespace).reverse)

def nonEmptyLines (lyrics : String) : List String :=
  (splitLines lyrics).filter (fun line => jsTrim line != "")

def useCurrentLyricLine (lyrics : String) (currentTime duration : ℚ) : Option String :=
  let lines := nonEmptyLines lyrics
  if lines.length = 0 ∨ duration = 0 ∨ lyrics = "" then
    none
  else
    let lineDuration := duration / (lines.length : ℚ)
    let currentIndex : ℤ := min ((lines.length : ℤ) - 1) ⌊currentTime / lineDuration⌋
    if currentIndex < 0 then none else lines[currentIndex.toNat]?

/-! ### YouTube transport play/pause effect (src/components/LyricsPanel.tsx,
YouTubeAudioPlayer, lines 160-169)

The effect reads the transport state (`1` = playing, `3` = buffering in the
YT API) and issues at most one command:
`if (isPlaying && state !== 1 && state !== 3) playVideo();
 else if (!isPlaying && state === 1) pauseVideo();` -/

inductive TransportCommand where
  | play : TransportCommand
  | pause : TransportCommand
deriving DecidableEq

def applyIsPlaying (isPlaying : Bool) (state : ℤ) : Option TransportCommand :=
  if isPlaying && state != 1 && state != 3 then some TransportCommand.play
  else if !isPlaying && state == 1 then some TransportCommand.pause
  else none

/-! ### Derived playing tracks and current track (src/App.tsx, lines 77-82)

`playingTracks = playbackContext === 'library' ? tracks
   : playlists.find(p => p.id === playbackContext)?.tracks || tracks;`
`currentTrack = playingTracks[currentTrackIndex] || tracks[0];`
A JS array is truthy even when empty, so the `|| tracks` fallback fires only
when the playlist lookup itself returns `undefined`; a `Track` object is
always truthy, so the `|| tracks[0]` fallback fires only when the index is
out of range. -/

structure Track where
  id : String
  title : String
  artist : String
  url : String
deriving DecidableEq

structure Playlist where
  id : String
  name : String
  tracks : List Track
deriving DecidableEq

def playingTracks (playbackContext : String) (tracks : List Track)
    (playlists : List Playlist) : List Track :=
  if playbackContext = "library" then tracks
  else
    match playlists.find? (fun p => p.id == playbackContext) with
    | some p => p.tracks
    | none => tracks

def currentTrack (playbackContext : String) (tracks : List Track)
    (playlists : List Playlist) (currentTrackIndex : ℕ) : Option Track :=
  (playingTracks playbackContext tracks playlists)[currentTrackIndex]? <|> tracks[0]?

/-! ### Gemini AI service (src/unnamed/part_003)

The backend call `ai.models.generateContent` is the external collaborator;
its outcome is either a response carrying an optional `text` field or a
thrown error. `GeminiError.msg` models the computed
`error?.message || JSON.stringify(error)` string that `isQuotaError`
inspects. `jsOrString` is the JS `x || fallback` idiom on an optional
string (both `undefined` and the empty string are falsy). -/

structure GeminiError where
  status : Option ℤ
  code : Option ℤ
  msg : String
deriving DecidableEq

def leadsWith : List Char → List Char → Bool
  | _, [] => true
  | [], _ :: _ => false
  | c :: cs, p :: ps => c == p && leadsWith cs ps

def charsInclude : List Char → List Char → Bool
  | [], pat => leadsWith [] pat
  | c :: cs, pat => leadsWith (c :: cs) pat || charsInclude cs pat

/-- JS `String.prototype.includes`, structurally recursive over the
character list. -/
def strIncludes (s pat : String) : Bool := charsInclude s.data pat.data

def isQuotaError (e : GeminiError) : Bool :=
  e.status == some 429 ||
  e.code == some 429 ||
  strIncludes e.msg "429" ||
  strIncludes e.msg "quota" ||
  strIncludes e.msg "RESOURCE_EXHAUSTED"

def jsOrString (x : Option String) (fallback : String) : String :=
  match x with
  | some s => if s = "" then fallback else s
  | none => fallback

inductive GeminiOutcome where
  | ok : Option String → GeminiOutcome
  | err : GeminiError → GeminiOutcome

def generateDJResponse (outcome : GeminiOutcome) : String :=
  match outcome with
  | GeminiOutcome.ok text =>
      jsOrString text "I\x27m vibing too hard to answer right now."
  | GeminiOutcome.err e =>
      if isQuotaError e then
        "I\x27m currently recharging my neural networks (Quota Exceeded). Catch you later!"
      else
        "Connection to the grid lost."

def fetchLyrics (outcome : GeminiOutcome) : String :=
  match outcome with
  | GeminiOutcome.ok text => jsOrString text ""
  | GeminiOutcome.err e =>
      if isQuotaError e then
        "Lyrics unavailable: API Quota Limit Exceeded.\n\nPlease try again later or manually add lyrics."
      else ""

structure VibeJson where
  color : Option String
  description : Option String

/-- Outcome of the vibe-analysis call. `ok (some json)` is a backend success
whose `response.text` parsed to an object with the given optional fields;
`ok none` is a backend success whose text did not parse to a usable object,
which the source maps to the same generic fallback as a non-quota error. -/
inductive VibeOutcome where
  | ok : Option VibeJson → VibeOutcome
  | err : GeminiError → VibeOutcome

def vibeColors : List String :=
  ["#ef4444", "#3b82f6", "#10b981", "#f59e0b", "#8b5cf6", "#ec4899"]

def analyzeTrackVibe (title artist : String) (outcome : VibeOutcome) : String × String :=
  match outcome with
  | VibeOutcome.ok (some json) =>
      (jsOrString json.color "#6366f1",
       jsOrString json.description "A mystery track from the void.")
  | VibeOutcome.ok none => ("#6366f1", "Unknown frequency detected.")
  | VibeOutcome.err e =>
      if isQuotaError e then
        (vibeColors.get ⟨(title.length + artist.length) % vibeColors.length,
           Nat.mod_lt _ (by decide)⟩,
         "Vibe analysis offline (Quota Limit).")
      else ("#6366f1", "Unknown frequency detected.")

/-! ### Lyrics fetch interleaving (src/App.tsx, lines 85-109 and 181-199)

`fetchLyricsForCurrentTrack(track)` first consults the cache
(`if (lyricsCache[track.id])` — a cached empty string is falsy); on a hit it
commits the cached text synchronously, otherwise it sets the loading flag,
clears the lyrics, and awaits `fetchLyrics(track)`. When that promise
resolves, the closure commits the result unconditionally — the code performs
no check that `track` is still the selected track. `LyricsEvent.select id`
is an invocation of `fetchLyricsForCurrentTrack` for the newly selected
track (the track-change effect); `LyricsEvent.resolve id text` is the
resumption of an awaited fetch for track `id` with result `text`. -/

structure LyricsState where
  lyrics : String
  lyricsCache : List (String × String)
  isLyricsLoading : Bool
  selectedTrackId : String
deriving DecidableEq

def cacheLookup (cache : List (String × String)) (trackId : String) : Option String :=
  (cache.find? (fun kv => kv.1 == trackId)).map (fun kv => kv.2)

inductive LyricsEvent where
  | select : String → LyricsEvent
  | resolve : String → String → LyricsEvent

def lyricsStep (st : LyricsState) (ev : LyricsEvent) : LyricsState :=
  match ev with
  | LyricsEvent.select trackId =>
      match cacheLookup st.lyricsCache trackId with
      | some cached =>
          if cached ≠ "" then
            { st with lyrics := cached, selectedTrackId := trackId }
          else
            { st with isLyricsLoading := true, lyrics := "", selectedTrackId := trackId }
      | none =>
          { st with isLyricsLoading := true, lyrics := "", selectedTrackId := trackId }
  | LyricsEvent.resolve trackId fetched =>
      if fetched ≠ "" then
        { st with lyrics := fetched,
                  lyricsCache := (trackId, fetched) :: st.lyricsCache,
                  isLyricsLoading := false }
      else
        { st with lyrics := "", isLyricsLoading := false }

def lyricsRun (st : LyricsState) (events : List LyricsEvent) : LyricsState :=
  events.foldl lyricsStep st

def initialLyricsState : LyricsState :=
  { lyrics := "", lyricsCache := [], isLyricsLoading := false, selectedTrackId := "" }

end NeonFlow

namespace NeonFlow

/-- C3: a `pointerMove` while captured emits
`speed = clamp(speed0 + deltaX/150, 0, 4)` and
`intensity = clamp(intensity0 - deltaY/150, 0.1, 3)`; in particular from
`(intensity, speed) = (1, 1)` a drag of `(150, -150)` yields `(2, 2)` and a
drag of `(-1000, 1000)` yields `(0.1, 0)`. -/
theorem onPointerMove_clamps :
    (∀ i0 s0 dx dy : ℚ,
      onPointerMove i0 s0 dx dy =
        (clamp (i0 - dy / 150) (1/10) 3, clamp (s0 + dx / 150) 0 4))
    ∧ onPointerMove 1 1 150 (-150) = (2, 2)
    ∧ onPointerMove 1 1 (-1000) 1000 = (1/10, 0) := by
  refine ⟨fun i0 s0 dx dy => ?_,
    by norm_num [onPointerMove, max_def, min_def],
    by norm_num [onPointerMove, max_def, min_def]⟩
  simp only [onPointerMove, clamp, sub_eq_add_neg, neg_div]

/-- C5: track advancement is modular over the active playback context: for a
sequence of length `n > 0` and any current index `i ≥ 0`, `handleNext` maps
`i` to `(i + 1) mod n` and `handlePrev` maps `i` to `(i - 1 + n) mod n`; with
a library of 3 tracks, `next` three times from index 0 returns to 0, and
`prev` from index 0 lands on index `n - 1`. -/
theorem handleNext_handlePrev_modular (i n : ℤ) (hi : 0 ≤ i) (hn : 0 < n) :
    handleNext i n = (i + 1) % n
    ∧ handlePrev i n = (i - 1 + n) % n
    ∧ handleNext (handleNext (handleNext 0 3) 3) 3 = 0
    ∧ handlePrev 0 3 = 3 - 1 := by
  refine ⟨?_, ?_, by decide, by decide⟩
  · exact Int.tmod_eq_emod (by omega) (by omega)
  · exact Int.tmod_eq_emod (by omega) (by omega)

/-- Witness for C5 at `i = 0`, `n = 3`. -/
theorem handleNext_handlePrev_modular_witness :
    handleNext 0 3 = (0 + 1) % 3
    ∧ handlePrev 0 3 = (0 - 1 + 3) % 3
    ∧ handleNext (handleNext (handleNext 0 3) 3) 3 = 0
    ∧ handlePrev 0 3 = 3 - 1 :=
  handleNext_handlePrev_modular 0 3 (by decide) (by decide)

/-- C6: the simulation-mode frequency generator is a pure function of elapsed
time, `average(t) = (sin(t*4)*0.5 + 0.5)*128 + 64`, bounded within
`[64, 192]`, and equal inputs produce equal outputs. -/
theorem simulatedAvg_bounded_deterministic (t tt : ℝ) (h : t = tt) :
    64 ≤ simulatedAvg t ∧ simulatedAvg t ≤ 192 ∧ simulatedAvg t = simulatedAvg tt := by
  have h1 := Real.neg_one_le_sin (t * 4)
  have h2 := Real.sin_le_one (t * 4)
  refine ⟨?_, ?_, by rw [h]⟩ <;>
    · unfold simulatedAvg
      nlinarith

/-- Witness for C6 at `t = 0`. -/
theorem simulatedAvg_bounded_deterministic_witness :
    64 ≤ simulatedAvg 0 ∧ simulatedAvg 0 ≤ 192 ∧ simulatedAvg 0 = simulatedAvg 0 :=
  simulatedAvg_bounded_deterministic 0 0 rfl

/-- C7: the Wave visualizer clock advances by exactly `delta * speed` each
frame and is never reset: over any frame sequence with nonnegative deltas and
speeds the final clock is the start value plus the sum of the per-frame
increments, the clock is non-decreasing (at every prefix), and a frame in
which no time elapses leaves the clock unchanged whatever the speed is (so a
speed change alone never produces a discontinuity in `t`). -/
theorem waveClock_accumulates (t0 : ℚ) (frames : List WaveFrame)
    (h : ∀ f ∈ frames, 0 ≤ f.delta ∧ 0 ≤ f.speed) :
    waveRun t0 frames = t0 + (frames.map (fun f => f.delta * f.speed)).sum
    ∧ t0 ≤ waveRun t0 frames
    ∧ (∀ pre suf, frames = pre ++ suf → waveRun t0 pre ≤ waveRun t0 frames)
    ∧ (∀ t : ℚ, ∀ f : WaveFrame, waveStep t f = t + f.delta * f.speed)
    ∧ (∀ t s : ℚ, waveStep t ⟨0, s⟩ = t) := by
  refine ⟨waveRun_eq_add_sum frames t0, waveRun_le t0 frames h, ?_, fun t f => rfl,
    fun t s => by simp [waveStep]⟩
  intro pre suf hsplit
  subst hsplit
  have : waveRun t0 (pre ++ suf) = waveRun (waveRun t0 pre) suf := by
    simp [waveRun, List.foldl_append]
  rw [this]
  apply waveRun_le
  intro f hf
  exact h f (List.mem_append.mpr (Or.inr hf))

/-- Witness for C7 on a concrete two-frame sequence with a speed change. -/
theorem waveClock_accumulates_witness :
    waveRun 3 [⟨1, 2⟩, ⟨0, 5⟩] =
      3 + ([⟨1, 2⟩, (⟨0, 5⟩ : WaveFrame)].map (fun f => f.delta * f.speed)).sum
    ∧ (3 : ℚ) ≤ waveRun 3 [⟨1, 2⟩, ⟨0, 5⟩]
    ∧ (∀ pre suf, [⟨1, 2⟩, (⟨0, 5⟩ : WaveFrame)] = pre ++ suf →
        waveRun 3 pre ≤ waveRun 3 [⟨1, 2⟩, ⟨0, 5⟩])
    ∧ (∀ t : ℚ, ∀ f : WaveFrame, waveStep t f = t + f.delta * f.speed)
    ∧ (∀ t s : ℚ, waveStep t ⟨0, s⟩ = t) :=
  waveClock_accumulates 3 [⟨1, 2⟩, ⟨0, 5⟩]
    (by intro f hf; fin_cases hf <;> constructor <;> norm_num)

/-- C8: the Orb target scale `1 + (average/255) * 1.5 * intensity` is
monotonically non-decreasing in `average` and in `intensity` on
`average ∈ [0, 255]`, `intensity ∈ [0.1, 3]`, and is always at least 1. -/
theorem orbTargetScale_monotone (a b i j : ℚ)
    (ha0 : 0 ≤ a) (hb255 : b ≤ 255) (hi0 : 1/10 ≤ i) (hj3 : j ≤ 3)
    (hab : a ≤ b) (hij : i ≤ j) :
    orbTargetScale a i ≤ orbTargetScale b i
    ∧ orbTargetScale a i ≤ orbTargetScale a j
    ∧ 1 ≤ orbTargetScale a i := by
  unfold orbTargetScale
  refine ⟨?_, ?_, ?_⟩ <;> nlinarith

/-- Witness for C8 at `a = 0`, `b = 255`, `i = 1/10`, `j = 3`. -/
theorem orbTargetScale_monotone_witness :
    orbTargetScale 0 (1/10) ≤ orbTargetScale 255 (1/10)
    ∧ orbTargetScale 0 (1/10) ≤ orbTargetScale 0 3
    ∧ 1 ≤ orbTargetScale 0 (1/10) :=
  orbTargetScale_monotone 0 255 (1/10) 3 (by norm_num) (by norm_num) (by norm_num)
    (by norm_num) (by norm_num) (by norm_num)

/-- C9: when the desired `isPlaying` flag is applied, the adapter issues a
play command iff the flag is set and the transport is neither playing (1)
nor buffering (3), issues a pause command iff the flag is cleared and the
transport is actually playing, and issues no command at all when desired and
actual state already agree. -/
theorem applyIsPlaying_no_redundant_commands (b : Bool) (s : ℤ) :
    (applyIsPlaying b s = some TransportCommand.play ↔ b = true ∧ s ≠ 1 ∧ s ≠ 3)
    ∧ (applyIsPlaying b s = some TransportCommand.pause ↔ b = false ∧ s = 1)
    ∧ ((b = true ∧ (s = 1 ∨ s = 3)) ∨ (b = false ∧ s ≠ 1) →
        applyIsPlaying b s = none) := by
  cases b <;>
    by_cases h1 : s = 1 <;>
      by_cases h3 : s = 3 <;>
        simp_all [applyIsPlaying]

/-- Witness for C9: transport already playing and desired playing issues no
command. -/
theorem applyIsPlaying_no_redundant_commands_witness :
    applyIsPlaying true 1 = none :=
  (applyIsPlaying_no_redundant_commands true 1).2.2 (Or.inl ⟨rfl, Or.inl rfl⟩)

/-- C10: with a non-empty library, the derived current track is always
defined: it is the element of the active context track list at
`currentTrackIndex` when the index is in range, and the first library track
otherwise; and a playback context naming a playlist id that does not exist
makes the active track list fall back to the whole library. -/
theorem currentTrack_total (pc : String) (ts : List Track) (pls : List Playlist)
    (idx : ℕ) (hne : ts ≠ []) :
    (currentTrack pc ts pls idx).isSome = true
    ∧ (∀ h : idx < (playingTracks pc ts pls).length,
        currentTrack pc ts pls idx = some ((playingTracks pc ts pls).get ⟨idx, h⟩))
    ∧ (¬ idx < (playingTracks pc ts pls).length →
        currentTrack pc ts pls idx = ts[0]?)
    ∧ ((∀ p ∈ pls, p.id ≠ pc) → playingTracks pc ts pls = ts) := by
  refine ⟨?_, ?_, ?_, ?_⟩
  · unfold currentTrack
    rcases h : (playingTracks pc ts pls)[idx]? with _ | tr
    · rcases ts with _ | ⟨t0, rest⟩
      · exact absurd rfl hne
      · simp [Option.orElse, h]
    · simp [Option.orElse, h]
  · intro h
    unfold currentTrack
    rw [List.getElem?_eq_getElem h]
    simp [Option.orElse, List.get_eq_getElem]
  · intro h
    unfold currentTrack
    rw [List.getElem?_eq_none (by omega)]
    simp [Option.orElse]
  · intro h
    unfold playingTracks
    by_cases hl : pc = "library"
    · simp [hl]
    · rw [if_neg hl]
      have : pls.find? (fun p => p.id == pc) = none := by
        rw [List.find?_eq_none]
        intro p hp
        simpa using h p hp
      rw [this]

/-- Witness for C10: a playback context naming a vanished playlist id, with
an out-of-range index, over a one-track library. -/
theorem currentTrack_total_witness :
    (currentTrack "gone" [⟨"1", "Neon Dreams", "CyberSynth", "u"⟩] [] 5).isSome = true
    ∧ (∀ h : 5 < (playingTracks "gone" [⟨"1", "Neon Dreams", "CyberSynth", "u"⟩] []).length,
        currentTrack "gone" [⟨"1", "Neon Dreams", "CyberSynth", "u"⟩] [] 5 =
          some ((playingTracks "gone" [⟨"1", "Neon Dreams", "CyberSynth", "u"⟩] []).get ⟨5, h⟩))
    ∧ (¬ 5 < (playingTracks "gone" [⟨"1", "Neon Dreams", "CyberSynth", "u"⟩] []).length →
        currentTrack "gone" [⟨"1", "Neon Dreams", "CyberSynth", "u"⟩] [] 5 =
          [(⟨"1", "Neon Dreams", "CyberSynth", "u"⟩ : Track)][0]?)
    ∧ ((∀ p ∈ ([] : List Playlist), p.id ≠ "gone") →
        playingTracks "gone" [⟨"1", "Neon Dreams", "CyberSynth", "u"⟩] [] =
          [⟨"1", "Neon Dreams", "CyberSynth", "u"⟩]) :=
  currentTrack_total "gone" [⟨"1", "Neon Dreams", "CyberSynth", "u"⟩] [] 5 (by decide)

/-- C2: each AI service function is a total function of the backend outcome
(it always yields a value — at the service boundary no exception escapes the
catch-all handler); a quota/rate-limit failure maps to the call-type-specific
fallback, any other failure maps to that call's generic fallback, and the
quota fallback is distinct from the generic fallback for every call type. -/
theorem aiService_fallbacks (title artist : String) (e : GeminiError) :
    (isQuotaError e = true →
      generateDJResponse (GeminiOutcome.err e) =
        "I\x27m currently recharging my neural networks (Quota Exceeded). Catch you later!"
      ∧ fetchLyrics (GeminiOutcome.err e) =
        "Lyrics unavailable: API Quota Limit Exceeded.\n\nPlease try again later or manually add lyrics."
      ∧ (analyzeTrackVibe title artist (VibeOutcome.err e)).2 =
        "Vibe analysis offline (Quota Limit).")
    ∧ (isQuotaError e = false →
      generateDJResponse (GeminiOutcome.err e) = "Connection to the grid lost."
      ∧ fetchLyrics (GeminiOutcome.err e) = ""
      ∧ analyzeTrackVibe title artist (VibeOutcome.err e) =
        ("#6366f1", "Unknown frequency detected."))
    ∧ (∀ e2 : GeminiError, isQuotaError e = true → isQuotaError e2 = false →
        generateDJResponse (GeminiOutcome.err e) ≠
          generateDJResponse (GeminiOutcome.err e2)
        ∧ fetchLyrics (GeminiOutcome.err e) ≠ fetchLyrics (GeminiOutcome.err e2)
        ∧ (analyzeTrackVibe title artist (VibeOutcome.err e)).2 ≠
            (analyzeTrackVibe title artist (VibeOutcome.err e2)).2) := by
  refine ⟨fun h => ?_, fun h => ?_, fun e2 h h2 => ?_⟩
  · simp [generateDJResponse, fetchLyrics, analyzeTrackVibe, h]
  · simp [generateDJResponse, fetchLyrics, analyzeTrackVibe, h]
  · refine ⟨?_, ?_, ?_⟩ <;>
      simp [generateDJResponse, fetchLyrics, analyzeTrackVibe, h, h2]

/-- Witness for C2: a 429-status error versus a plain error. -/
theorem aiService_fallbacks_witness :
    generateDJResponse (GeminiOutcome.err ⟨some 429, none, ""⟩) =
      "I\x27m currently recharging my neural networks (Quota Exceeded). Catch you later!"
    ∧ generateDJResponse (GeminiOutcome.err ⟨none, none, "network down"⟩) =
      "Connection to the grid lost."
    ∧ fetchLyrics (GeminiOutcome.err ⟨none, none, "network down"⟩) = ""
    ∧ generateDJResponse (GeminiOutcome.err ⟨some 429, none, ""⟩) ≠
        generateDJResponse (GeminiOutcome.err ⟨none, none, "network down"⟩) :=
  ⟨((aiService_fallbacks "Neon Dreams" "CyberSynth" ⟨some 429, none, ""⟩).1
      (by decide)).1,
   ((aiService_fallbacks "Neon Dreams" "CyberSynth" ⟨none, none, "network down"⟩).2.1
      (by decide)).1,
   ((aiService_fallbacks "Neon Dreams" "CyberSynth" ⟨none, none, "network down"⟩).2.1
      (by decide)).2.1,
   ((aiService_fallbacks "Neon Dreams" "CyberSynth" ⟨some 429, none, ""⟩).2.2
      ⟨none, none, "network down"⟩ (by decide) (by decide)).1⟩

/-- C1 (refuted by the code): `fetchLyricsForCurrentTrack` commits the
awaited fetch result with no check that its track is still the selected one.
On the interleaving select A, select B, resolve B, resolve A — a fetch for A
still in flight when B is selected and resolving last — the final state has
B selected and B's lyrics cached, yet A's stale response is the lyrics state
committed last, overwriting B's displayed lyrics. -/
theorem staleLyricsFetchOverwrites :
    (lyricsRun initialLyricsState
      [LyricsEvent.select "A", LyricsEvent.select "B",
       LyricsEvent.resolve "B" "B lyrics",
       LyricsEvent.resolve "A" "A stale lyrics"]).selectedTrackId = "B"
    ∧ cacheLookup (lyricsRun initialLyricsState
        [LyricsEvent.select "A", LyricsEvent.select "B",
         LyricsEvent.resolve "B" "B lyrics",
         LyricsEvent.resolve "A" "A stale lyrics"]).lyricsCache "B" = some "B lyrics"
    ∧ (lyricsRun initialLyricsState
        [LyricsEvent.select "A", LyricsEvent.select "B",
         LyricsEvent.resolve "B" "B lyrics",
         LyricsEvent.resolve "A" "A stale lyrics"]).lyrics = "A stale lyrics"
    ∧ ("A stale lyrics" : String) ≠ "B lyrics" := by
  decide

/-- C4: the lyric-line estimator returns `none` when there are no non-empty
lines, the duration is zero, or the lyrics are empty; otherwise for
`0 ≤ t < d` it returns the line at index `⌊t / (d / N)⌋`, which lies in
`[0, N-1]`, and for `t ≥ d` it returns the last line — never an
out-of-bounds access. -/
theorem useCurrentLyricLine_spec (lyrics : String) (t d : ℚ) :
    ((nonEmptyLines lyrics = [] ∨ d = 0 ∨ lyrics = "") →
      useCurrentLyricLine lyrics t d = none)
    ∧ (nonEmptyLines lyrics ≠ [] → lyrics ≠ "" → 0 < d → 0 ≤ t → t < d →
        ⌊t / (d / ((nonEmptyLines lyrics).length : ℚ))⌋.toNat
            < (nonEmptyLines lyrics).length
        ∧ useCurrentLyricLine lyrics t d =
            (nonEmptyLines lyrics)[⌊t / (d / ((nonEmptyLines lyrics).length : ℚ))⌋.toNat]?
        ∧ (useCurrentLyricLine lyrics t d).isSome = true)
    ∧ (nonEmptyLines lyrics ≠ [] → lyrics ≠ "" → 0 < d → d ≤ t →
        useCurrentLyricLine lyrics t d = (nonEmptyLines lyrics).getLast?) := by
  refine ⟨fun h => ?_, fun hL hly hd ht htd => ?_, fun hL hly hd hdt => ?_⟩
  · rcases h with h | h | h <;> simp [useCurrentLyricLine, h, List.length_eq_zero]
  · have hN : 0 < (nonEmptyLines lyrics).length := List.length_pos.mpr hL
    have hNQ : (0:ℚ) < ((nonEmptyLines lyrics).length : ℚ) := by exact_mod_cast hN
    have hld : 0 < d / ((nonEmptyLines lyrics).length : ℚ) := div_pos hd hNQ
    have hx0 : 0 ≤ t / (d / ((nonEmptyLines lyrics).length : ℚ)) :=
      div_nonneg ht (le_of_lt hld)
    have hxN : t / (d / ((nonEmptyLines lyrics).length : ℚ))
        < ((nonEmptyLines lyrics).length : ℚ) := by
      rw [div_lt_iff₀ hld]
      have hcancel : ((nonEmptyLines lyrics).length : ℚ)
          * (d / ((nonEmptyLines lyrics).length : ℚ)) = d := by
        field_simp
      rw [hcancel]
      exact htd
    have hF0 : 0 ≤ ⌊t / (d / ((nonEmptyLines lyrics).length : ℚ))⌋ :=
      Int.floor_nonneg.mpr hx0
    have hFN : ⌊t / (d / ((nonEmptyLines lyrics).length : ℚ))⌋
        < ((nonEmptyLines lyrics).length : ℤ) := by
      rw [Int.floor_lt]
      exact_mod_cast hxN
    have hmin : min (((nonEmptyLines lyrics).length : ℤ) - 1)
        ⌊t / (d / ((nonEmptyLines lyrics).length : ℚ))⌋
        = ⌊t / (d / ((nonEmptyLines lyrics).length : ℚ))⌋ :=
      min_eq_right (by omega)
    have htoNat : ⌊t / (d / ((nonEmptyLines lyrics).length : ℚ))⌋.toNat
        < (nonEmptyLines lyrics).length := by omega
    have heval : useCurrentLyricLine lyrics t d =
        (nonEmptyLines lyrics)[⌊t / (d / ((nonEmptyLines lyrics).length : ℚ))⌋.toNat]? := by
      simp only [useCurrentLyricLine]
      rw [if_neg (by push_neg; exact ⟨by omega, hd.ne', hly⟩), hmin,
        if_neg (not_lt.mpr hF0)]
    refine ⟨htoNat, heval, ?_⟩
    rw [heval, List.getElem?_eq_getElem htoNat]
    rfl
  · have hN : 0 < (nonEmptyLines lyrics).length := List.length_pos.mpr hL
    have hNQ : (0:ℚ) < ((nonEmptyLines lyrics).length : ℚ) := by exact_mod_cast hN
    have hld : 0 < d / ((nonEmptyLines lyrics).length : ℚ) := div_pos hd hNQ
    have hxge : ((nonEmptyLines lyrics).length : ℚ)
        ≤ t / (d / ((nonEmptyLines lyrics).length : ℚ)) := by
      rw [le_div_iff₀ hld]
      have hcancel : ((nonEmptyLines lyrics).length : ℚ)
          * (d / ((nonEmptyLines lyrics).length : ℚ)) = d := by
        field_simp
      rw [hcancel]
      exact hdt
    have hF : ((nonEmptyLines lyrics).length : ℤ)
        ≤ ⌊t / (d / ((nonEmptyLines lyrics).length : ℚ))⌋ :=
      Int.le_floor.mpr (by exact_mod_cast hxge)
    have hmin : min (((nonEmptyLines lyrics).length : ℤ) - 1)
        ⌊t / (d / ((nonEmptyLines lyrics).length : ℚ))⌋
        = ((nonEmptyLines lyrics).length : ℤ) - 1 :=
      min_eq_left (by omega)
    have htoNat : (((nonEmptyLines lyrics).length : ℤ) - 1).toNat
        = (nonEmptyLines lyrics).length - 1 := by omega
    simp only [useCurrentLyricLine]
    rw [if_neg (by push_neg; exact ⟨by omega, hd.ne', hly⟩), hmin,
      if_neg (not_lt.mpr (by omega)), htoNat, List.getLast?_eq_getElem?]

/-- Witness for C4: empty lyrics; then a two-line lyric sheet at
`t = 1, d = 4` (in range) and at `t = 9, d = 4` (past the end). -/
theorem useCurrentLyricLine_spec_witness :
    useCurrentLyricLine "" 1 4 = none
    ∧ (⌊(1:ℚ) / (4 / ((nonEmptyLines "Neon\n\nGrid").length : ℚ))⌋.toNat
          < (nonEmptyLines "Neon\n\nGrid").length
       ∧ useCurrentLyricLine "Neon\n\nGrid" 1 4 =
          (nonEmptyLines "Neon\n\nGrid")[⌊(1:ℚ)
            / (4 / ((nonEmptyLines "Neon\n\nGrid").length : ℚ))⌋.toNat]?
       ∧ (useCurrentLyricLine "Neon\n\nGrid" 1 4).isSome = true)
    ∧ useCurrentLyricLine "Neon\n\nGrid" 9 4 = (nonEmptyLines "Neon\n\nGrid").getLast? :=
  ⟨(useCurrentLyricLine_spec "" 1 4).1 (Or.inr (Or.inr rfl)),
   (useCurrentLyricLine_spec "Neon\n\nGrid" 1 4).2.1
     (by decide) (by decide) (by decide) (by decide) (by decide),
   (useCurrentLyricLine_spec "Neon\n\nGrid" 9 4).2.2
     (by decide) (by decide) (by decide) (by decide)⟩

end NeonFlow
